import Mathlib

/-!
Shallow embedding of the tabular data model and the two row-iteration
strategies demonstrated by the notebooks in this repository
(`B_Pandas_tips/1 - Faster DataFrame row iteration.ipynb` and the unnamed
notebook "Pandas tips: #2"). The notebooks only call the external
pandas/numpy library, whose code is not part of the repository; the
definitions below therefore model that library surface from the spec's
description of it (a four-column integer table with a default positional
row index, a labeled-series row traversal, and a record-yielding row
traversal with an optional flag to omit the positional index), together
with the concrete calls and recorded outputs in the notebook cells.
-/

namespace PandasTips

/-- Modelled from the spec: a row of a labeled-series view, one entry per
column label, entries addressable by column name (`pd.Series`). -/
structure Series where
  labels : List String
  values : List Int
deriving DecidableEq

/-- Modelled from the spec: the lightweight fixed-shape record yielded per
row by the record-yielding traversal (a Python namedtuple), fields
addressable by name. -/
structure NamedTuple where
  fields : List (String × Int)
deriving DecidableEq

/-- Modelled from the spec: the ephemeral two-dimensional tabular structure
with labeled columns of integer values and a positional row index
(`pd.DataFrame`). Columns are stored column-major, as in the library. -/
structure DataFrame where
  colLabels : List String
  cols : List (List Int)
  index : List Nat
deriving DecidableEq

/-- Number of rows of the table, the length of its row index. -/
def DataFrame.nrows (df : DataFrame) : Nat := df.index.length

/-- The entry at row `i` of column position `j` (0 outside the table). -/
def DataFrame.cell (df : DataFrame) (i j : Nat) : Int :=
  (df.cols.getD j []).getD i 0

/-- The `i`-th row of the table, in column order. -/
def DataFrame.row (df : DataFrame) (i : Nat) : List Int :=
  df.cols.map fun c => c.getD i 0

/-- Modelled from the spec: the construction call `pd.DataFrame(data, columns=...)`
from a row-major matrix. The ambient library raises on malformed input
(a row whose width does not match the column labels); otherwise it builds
the column-major table with the default positional row index `0..n-1`. -/
def pd_DataFrame (data : List (List Int)) (columns : List String) :
    Except String DataFrame :=
  if data.all fun r => r.length == columns.length then
    Except.ok
      ⟨columns,
       (List.range columns.length).map fun j => data.map fun r => r.getD j 0,
       List.range data.length⟩
  else
    Except.error "ValueError: columns do not match data shape"

/-- Modelled from the spec: `np.random.randint(lo, hi, size=(nrows, ncols))`,
pseudorandom integer sampling with inclusive lower and exclusive upper
bound. The pseudorandom source is abstracted as `seed`, a function from the
cell position to a draw. -/
def np_random_randint (lo hi : Int) (nrows ncols : Nat)
    (seed : Nat → Nat → Nat) : List (List Int) :=
  (List.range nrows).map fun i =>
    (List.range ncols).map fun j => lo + (seed i j : Int) % (hi - lo)

/-- The single construction call of the notebooks:
`pd.DataFrame(np.random.randint(0, 100, size=(n, 4)), columns=list('ABCD'))`
(in the notebooks `n = 100`). -/
def demoDF (seed : Nat → Nat → Nat) (n : Nat) : Except String DataFrame :=
  pd_DataFrame (np_random_randint 0 100 n 4 seed) ["A", "B", "C", "D"]

/-- Modelled from the spec: `df.iterrows()`, the row-wise traversal yielding
the index label and a labeled-series view per row. -/
def DataFrame.iterrows (df : DataFrame) : List (Nat × Series) :=
  (List.range df.nrows).map fun i =>
    (df.index.getD i 0, ⟨df.colLabels, df.row i⟩)

/-- Modelled from the spec: `df.itertuples(index=withIndex)`, the row-wise
traversal yielding a namedtuple per row; when the index is included its
field is named `Index`, as the recorded notebook output
`Pandas(Index=0, A=96, B=55, C=94, D=58)` shows. -/
def DataFrame.itertuples (df : DataFrame) (withIndex : Bool) : List NamedTuple :=
  (List.range df.nrows).map fun i =>
    ⟨if withIndex then
        ("Index", (df.index.getD i 0 : Int)) :: df.colLabels.zip (df.row i)
      else
        df.colLabels.zip (df.row i)⟩

/-- Attribute access on a series row by column name (`row.A`). -/
def Series.attr (s : Series) (k : String) : Option Int :=
  (s.labels.zip s.values).lookup k

/-- Attribute access on a namedtuple row by field name (`nt.A`). -/
def NamedTuple.attr (nt : NamedTuple) (k : String) : Option Int :=
  nt.fields.lookup k

/-- One step of the iterrows generator: yield the item for row `i` from the
current table state and pass the state on (the traversal never writes). -/
def iterrowsStep (df : DataFrame) (i : Nat) : (Nat × Series) × DataFrame :=
  ((df.index.getD i 0, ⟨df.colLabels, df.row i⟩), df)

/-- One step of the itertuples generator, likewise read-only. -/
def itertuplesStep (df : DataFrame) (withIndex : Bool) (i : Nat) :
    NamedTuple × DataFrame :=
  (⟨if withIndex then
      ("Index", (df.index.getD i 0 : Int)) :: df.colLabels.zip (df.row i)
    else
      df.colLabels.zip (df.row i)⟩, df)

/-- A complete iterrows traversal as explicit state passing: the yielded
items together with the table state left behind. -/
def DataFrame.iterrowsRun (df : DataFrame) : List (Nat × Series) × DataFrame :=
  (List.range df.nrows).foldl
    (fun p i => (p.1 ++ [(iterrowsStep p.2 i).1], (iterrowsStep p.2 i).2))
    ([], df)

/-- A complete itertuples traversal as explicit state passing. -/
def DataFrame.itertuplesRun (df : DataFrame) (withIndex : Bool) :
    List NamedTuple × DataFrame :=
  (List.range df.nrows).foldl
    (fun p i => (p.1 ++ [(itertuplesStep p.2 withIndex i).1],
                 (itertuplesStep p.2 withIndex i).2))
    ([], df)

/-- The read operations the notebooks perform on a constructed table. -/
inductive ReadOp where
  | iterrows : ReadOp
  | itertuples : Bool → ReadOp
  | readCell : Nat → Nat → ReadOp
deriving DecidableEq

/-- The table state after one read operation. -/
def applyReadOp (df : DataFrame) (op : ReadOp) : DataFrame :=
  match op with
  | ReadOp.iterrows => df.iterrowsRun.2
  | ReadOp.itertuples b => (df.itertuplesRun b).2
  | ReadOp.readCell _ _ => df

/-- The table state after a sequence of read operations. -/
def applyReadOps (df : DataFrame) (ops : List ReadOp) : DataFrame :=
  ops.foldl applyReadOp df

/-- The spec's data-model invariant: each column has the same number of
rows, namely the length of the row index, and there is one column per
label. -/
def DataFrame.columnsAligned (df : DataFrame) : Prop :=
  df.cols.length = df.colLabels.length ∧ ∀ c ∈ df.cols, c.length = df.nrows

/-- Default item used with `List.getD` over iterrows results. -/
def defaultRowItem : Nat × Series := (0, ⟨[], []⟩)

/-- Default item used with `List.getD` over itertuples results. -/
def defaultNT : NamedTuple := ⟨[]⟩

/-- A small concrete table used to instantiate hypotheses of the theorems
below: column labels A, B, C, D, one row `(10, 20, 30, 40)`, index `[0]`. -/
def sampleDF : DataFrame := ⟨["A", "B", "C", "D"], [[10], [20], [30], [40]], [0]⟩

/-- Indexing a map over `List.range` at an in-range position. -/
lemma getD_map_range {α : Type} (f : Nat → α) (n i : Nat) (d : α) (h : i < n) :
    ((List.range n).map f).getD i d = f i := by
  simp [List.getD, List.getElem?_map, List.getElem?_range, h]

/-- Mapping a positional read over `List.range` recovers a map over the
list itself. -/
lemma range_map_getD_comp {α β : Type} (f : α → β) (d : α) (l : List α) :
    (List.range l.length).map (fun j => f (l.getD j d)) = l.map f := by
  induction l with
  | nil => rfl
  | cons a l ih =>
      simp only [List.length_cons, List.range_succ_eq_map, List.map_cons,
        List.map_map, List.map_cons]
      exact congrArg (f a :: ·) ih

/-- Looking up an absent key in a zipped association list fails. -/
lemma lookup_zip_of_not_mem (labels : List String) (vals : List Int)
    (k : String) (h : k ∉ labels) :
    (labels.zip vals).lookup k = none := by
  induction labels generalizing vals with
  | nil => simp
  | cons a labels ih =>
      cases vals with
      | nil => simp
      | cons v vs =>
          have hne : k ≠ a := fun he => h (he ▸ List.mem_cons_self a labels)
          have ht : k ∉ labels := fun hm => h (List.mem_cons_of_mem a hm)
          show List.lookup k ((a, v) :: labels.zip vs) = none
          rw [List.lookup_cons, beq_false_of_ne hne]
          simpa using ih vs ht

/-- Looking up the `j`-th label of a duplicate-free label list in the
zipped association list returns the `j`-th value. -/
lemma lookup_zip_get (labels : List String) (vals : List Int) (j : Nat)
    (hnd : labels.Nodup) (hlen : vals.length = labels.length)
    (hj : j < labels.length) :
    (labels.zip vals).lookup (labels.get ⟨j, hj⟩)
      = some (vals.get ⟨j, by omega⟩) := by
  induction labels generalizing vals j with
  | nil => exact absurd hj (Nat.not_lt_zero j)
  | cons a labels ih =>
      cases vals with
      | nil => simp at hlen
      | cons v vs =>
          cases j with
          | zero =>
              show List.lookup a ((a, v) :: labels.zip vs) = some v
              rw [List.lookup_cons]
              simp
          | succ j =>
              have hj' : j < labels.length := Nat.lt_of_succ_lt_succ hj
              have hmem : labels.get ⟨j, hj'⟩ ∈ labels := List.get_mem labels j hj'
              have hne : labels.get ⟨j, hj'⟩ ≠ a := by
                intro he
                exact (List.nodup_cons.mp hnd).1 (he ▸ hmem)
              have hlen' : vs.length = labels.length := by
                simpa using hlen
              show List.lookup (labels.get ⟨j, hj'⟩) ((a, v) :: labels.zip vs)
                = some (vs.get ⟨j, by omega⟩)
              rw [List.lookup_cons, beq_false_of_ne hne]
              simpa using ih vs j (List.nodup_cons.mp hnd).2 hlen' hj'

/-- Unrolling the state-passing iterrows traversal: the state is threaded
through every yield step and comes out unchanged, and the yielded items are
the per-row items of the starting table. -/
lemma iterrowsRun_foldl (df : DataFrame) (l : List Nat) (acc : List (Nat × Series)) :
    l.foldl
      (fun p i => (p.1 ++ [(iterrowsStep p.2 i).1], (iterrowsStep p.2 i).2))
      (acc, df)
      = (acc ++ l.map fun i => (iterrowsStep df i).1, df) := by
  induction l generalizing acc with
  | nil => simp
  | cons i l ih =>
      simp only [List.foldl_cons]
      exact (ih (acc ++ [(iterrowsStep df i).1])).trans (by simp)

/-- Unrolling the state-passing itertuples traversal, likewise. -/
lemma itertuplesRun_foldl (df : DataFrame) (b : Bool) (l : List Nat)
    (acc : List NamedTuple) :
    l.foldl
      (fun p i => (p.1 ++ [(itertuplesStep p.2 b i).1], (itertuplesStep p.2 b i).2))
      (acc, df)
      = (acc ++ l.map fun i => (itertuplesStep df b i).1, df) := by
  induction l generalizing acc with
  | nil => simp
  | cons i l ih =>
      simp only [List.foldl_cons]
      exact (ih (acc ++ [(itertuplesStep df b i).1])).trans (by simp)

/-- A complete iterrows traversal yields exactly `df.iterrows` and leaves
the table as it was. -/
lemma iterrowsRun_eq (df : DataFrame) : df.iterrowsRun = (df.iterrows, df) := by
  unfold DataFrame.iterrowsRun
  rw [iterrowsRun_foldl]
  rfl

/-- A complete itertuples traversal yields exactly `df.itertuples b` and
leaves the table as it was. -/
lemma itertuplesRun_eq (df : DataFrame) (b : Bool) :
    df.itertuplesRun b = (df.itertuples b, df) := by
  unfold DataFrame.itertuplesRun
  rw [itertuplesRun_foldl]
  rfl

/-- Every single read operation leaves the table unchanged. -/
lemma applyReadOp_eq (df : DataFrame) (op : ReadOp) : applyReadOp df op = df := by
  cases op with
  | iterrows => simp [applyReadOp, iterrowsRun_eq]
  | itertuples b => simp [applyReadOp, itertuplesRun_eq]
  | readCell i j => rfl

/-- Every sequence of read operations leaves the table unchanged. -/
lemma applyReadOps_eq (df : DataFrame) (ops : List ReadOp) :
    applyReadOps df ops = df := by
  induction ops generalizing df with
  | nil => rfl
  | cons op ops ih =>
      show applyReadOps (applyReadOp df op) ops = df
      rw [applyReadOp_eq, ih]

/-- Every row of the sampled matrix has `ncols` entries. -/
lemma np_random_randint_row_length (lo hi : Int) (nrows ncols : Nat)
    (seed : Nat → Nat → Nat) (r : List Int)
    (hr : r ∈ np_random_randint lo hi nrows ncols seed) : r.length = ncols := by
  obtain ⟨i, _, rfl⟩ := List.mem_map.mp hr
  simp

/-- The sampled matrix has `nrows` rows. -/
lemma np_random_randint_length (lo hi : Int) (nrows ncols : Nat)
    (seed : Nat → Nat → Nat) :
    (np_random_randint lo hi nrows ncols seed).length = nrows := by
  simp [np_random_randint]

/-- A successful construction call determines the three fields of the
resulting table. -/
lemma pd_DataFrame_ok (data : List (List Int)) (columns : List String)
    (df : DataFrame) (h : pd_DataFrame data columns = Except.ok df) :
    df.colLabels = columns ∧
    df.cols = ((List.range columns.length).map fun j =>
      data.map fun r => r.getD j 0) ∧
    df.index = List.range data.length := by
  unfold pd_DataFrame at h
  split at h
  · injection h with h'
    subst h'
    exact ⟨rfl, rfl, rfl⟩
  · cases h

/-- The notebooks' construction call never takes the error branch, and its
result is the table with the four sampled columns and index `0..n-1`. -/
lemma demoDF_eq_ok (seed : Nat → Nat → Nat) (n : Nat) :
    demoDF seed n = Except.ok
      ⟨["A", "B", "C", "D"],
       (List.range 4).map fun j =>
         (np_random_randint 0 100 n 4 seed).map fun r => r.getD j 0,
       List.range n⟩ := by
  unfold demoDF pd_DataFrame
  have hall : ((np_random_randint 0 100 n 4 seed).all
      fun r => r.length == (["A", "B", "C", "D"] : List String).length) = true := by
    rw [List.all_eq_true]
    intro r hr
    have hlen := np_random_randint_row_length 0 100 n 4 seed r hr
    simp [hlen]
  rw [if_pos hall]
  have hlen : (np_random_randint 0 100 n 4 seed).length = n :=
    np_random_randint_length 0 100 n 4 seed
  rw [hlen]
  rfl

/-- C2: the single construction call produces a two-dimensional table with
exactly four columns labeled A, B, C, D, a default positional row index
`0..n-1`, and every entry an integer drawn by the pseudorandom sampling
(entries are integers by construction: the columns are lists of `Int`
obtained from the sampled matrix; in the notebooks `n = 100`). -/
theorem demoDF_builds_four_labeled_integer_columns (seed : Nat → Nat → Nat)
    (n : Nat) :
    ∃ df : DataFrame, demoDF seed n = Except.ok df ∧
      df.colLabels = ["A", "B", "C", "D"] ∧
      df.cols.length = 4 ∧
      (∀ c ∈ df.cols, c.length = n) ∧
      df.index = List.range n ∧
      df.cols = ((List.range 4).map fun j =>
        (np_random_randint 0 100 n 4 seed).map fun r => r.getD j 0) := by
  refine ⟨_, demoDF_eq_ok seed n, rfl, by simp, ?_, rfl, rfl⟩
  intro c hc
  obtain ⟨j, _, rfl⟩ := List.mem_map.mp hc
  simp [np_random_randint_length]

/-- C4: both row-iteration operations are read-only: after a complete
traversal by iterrows or by itertuples, the backing table is unchanged —
same column labels, same row index, and the same value in every cell. -/
theorem iteration_is_read_only (df : DataFrame) (b : Bool) :
    df.iterrowsRun.2 = df ∧ (df.itertuplesRun b).2 = df ∧
    df.iterrowsRun.2.colLabels = df.colLabels ∧
    df.iterrowsRun.2.index = df.index ∧
    (∀ i j, df.iterrowsRun.2.cell i j = df.cell i j) ∧
    (df.itertuplesRun b).2.colLabels = df.colLabels ∧
    (df.itertuplesRun b).2.index = df.index ∧
    (∀ i j, (df.itertuplesRun b).2.cell i j = df.cell i j) := by
  rw [iterrowsRun_eq, itertuplesRun_eq]
  exact ⟨rfl, rfl, rfl, rfl, fun i j => rfl, rfl, rfl, fun i j => rfl⟩

/-- C5: every table produced by the construction call satisfies the
invariant that each column has the same number of rows, and the invariant
still holds after any sequence of iteration and read operations. -/
theorem columns_stay_aligned (data : List (List Int)) (columns : List String)
    (df : DataFrame) (h : pd_DataFrame data columns = Except.ok df)
    (ops : List ReadOp) :
    df.columnsAligned ∧ (applyReadOps df ops).columnsAligned := by
  obtain ⟨hl, hc, hi⟩ := pd_DataFrame_ok data columns df h
  have hal : df.columnsAligned := by
    constructor
    · rw [hc, hl]
      simp
    · intro c hcmem
      rw [hc] at hcmem
      obtain ⟨j, _, rfl⟩ := List.mem_map.mp hcmem
      simp [DataFrame.nrows, hi]
  exact ⟨hal, by rw [applyReadOps_eq]; exact hal⟩

/-- Witness for C5 at a concrete construction call and read sequence. -/
theorem columns_stay_aligned_witness :
    (⟨["A", "B"], [[1], [2]], [0]⟩ : DataFrame).columnsAligned ∧
    (applyReadOps ⟨["A", "B"], [[1], [2]], [0]⟩
      [ReadOp.iterrows, ReadOp.itertuples true, ReadOp.readCell 0 0]).columnsAligned :=
  columns_stay_aligned [[1, 2]] ["A", "B"] ⟨["A", "B"], [[1], [2]], [0]⟩ rfl
    [ReadOp.iterrows, ReadOp.itertuples true, ReadOp.readCell 0 0]

/-- The `i`-th item yielded by iterrows, read off positionally. -/
lemma iterrows_getD (df : DataFrame) (i : Nat) (hi : i < df.nrows) :
    df.iterrows.getD i defaultRowItem
      = (df.index.getD i 0, ⟨df.colLabels, df.row i⟩) :=
  getD_map_range _ df.nrows i _ hi

/-- The `i`-th record yielded by itertuples, read off positionally. -/
lemma itertuples_getD (df : DataFrame) (b : Bool) (i : Nat) (hi : i < df.nrows) :
    (df.itertuples b).getD i defaultNT
      = ⟨if b then
            ("Index", (df.index.getD i 0 : Int)) :: df.colLabels.zip (df.row i)
          else
            df.colLabels.zip (df.row i)⟩ :=
  getD_map_range _ df.nrows i _ hi

/-- The first item of a nonempty mapped range. -/
lemma head?_map_range {α : Type} (f : Nat → α) (n : Nat) (h : 0 < n) :
    ((List.range n).map f).head? = some (f 0) := by
  cases n with
  | zero => omega
  | succ m =>
      rw [List.range_succ_eq_map]
      rfl

/-- A positional read with default is either a list element or the default. -/
lemma getD_mem_or_default {α : Type} (l : List α) (i : Nat) (d : α) :
    l.getD i d ∈ l ∨ l.getD i d = d := by
  by_cases h : i < l.length
  · left
    rw [List.getD_eq_getElem?_getD, List.getElem?_eq_getElem h]
    exact List.getElem_mem h
  · right
    rw [List.getD_eq_getElem?_getD, List.getElem?_eq_none (by omega)]
    rfl

/-- A property holding for the default and for every element of a list
holds for any positional read with that default. -/
lemma getD_pred {α : Type} (P : α → Prop) (l : List α) (i : Nat) (d : α)
    (hd : P d) (hl : ∀ x ∈ l, P x) : P (l.getD i d) := by
  cases getD_mem_or_default l i d with
  | inl h => exact hl _ h
  | inr h => rw [h]; exact hd

/-- Every entry of the sampled matrix is a draw shifted into the requested
range. -/
lemma np_random_randint_entry_mem (lo hi : Int) (nr nc : Nat)
    (seed : Nat → Nat → Nat) (r : List Int)
    (hr : r ∈ np_random_randint lo hi nr nc seed) (v : Int) (hv : v ∈ r) :
    ∃ a b, v = lo + (seed a b : Int) % (hi - lo) := by
  obtain ⟨i, _, rfl⟩ := List.mem_map.mp hr
  obtain ⟨j, _, rfl⟩ := List.mem_map.mp hv
  exact ⟨i, j, rfl⟩

/-- C1: for every table whose column labels do not contain the reserved
field name `Index`, the iterrows-style and itertuples-style traversals
yield equal per-row content at each position: the value for any column
label agrees between the two (with and without the index in the record),
and the row index yielded by iterrows equals the `Index` field of the
itertuples record. -/
theorem iterrows_itertuples_rows_agree (df : DataFrame)
    (hIdx : "Index" ∉ df.colLabels) (i : Nat) (hi : i < df.nrows)
    (k : String) (hk : k ∈ df.colLabels) :
    Series.attr (df.iterrows.getD i defaultRowItem).2 k
      = NamedTuple.attr ((df.itertuples true).getD i defaultNT) k ∧
    Series.attr (df.iterrows.getD i defaultRowItem).2 k
      = NamedTuple.attr ((df.itertuples false).getD i defaultNT) k ∧
    NamedTuple.attr ((df.itertuples true).getD i defaultNT) "Index"
      = some (((df.iterrows.getD i defaultRowItem).1 : Int)) := by
  rw [iterrows_getD df i hi, itertuples_getD df true i hi,
    itertuples_getD df false i hi]
  have hne : k ≠ "Index" := fun he => hIdx (he ▸ hk)
  refine ⟨?_, rfl, ?_⟩
  · show (df.colLabels.zip (df.row i)).lookup k
      = List.lookup k
          (("Index", (df.index.getD i 0 : Int)) :: df.colLabels.zip (df.row i))
    rw [List.lookup_cons, beq_false_of_ne hne]
  · show List.lookup "Index"
        (("Index", (df.index.getD i 0 : Int)) :: df.colLabels.zip (df.row i))
      = some ((df.index.getD i 0 : Int))
    rw [List.lookup_cons]
    simp

/-- Witness for C1 at the concrete sample table, row 0, column A. -/
theorem iterrows_itertuples_rows_agree_witness :
    Series.attr (sampleDF.iterrows.getD 0 defaultRowItem).2 "A"
      = NamedTuple.attr ((sampleDF.itertuples true).getD 0 defaultNT) "A" ∧
    Series.attr (sampleDF.iterrows.getD 0 defaultRowItem).2 "A"
      = NamedTuple.attr ((sampleDF.itertuples false).getD 0 defaultNT) "A" ∧
    NamedTuple.attr ((sampleDF.itertuples true).getD 0 defaultNT) "Index"
      = some (((sampleDF.iterrows.getD 0 defaultRowItem).1 : Int)) :=
  iterrows_itertuples_rows_agree sampleDF (by decide) 0 (by decide) "A" (by decide)

/-- C3: each traversal yields rows exactly in the table's row order: the
`i`-th item yielded by iterrows carries the `i`-th index label and the
`i`-th row's cell values in column order, and so does the `i`-th record
yielded by itertuples. -/
theorem traversals_follow_row_order (df : DataFrame) (b : Bool) (i : Nat)
    (hi : i < df.nrows) :
    (df.iterrows.getD i defaultRowItem).1 = df.index.getD i 0 ∧
    (df.iterrows.getD i defaultRowItem).2.values
      = ((List.range df.cols.length).map fun j => df.cell i j) ∧
    ((df.itertuples b).getD i defaultNT).fields
      = (if b then [("Index", (df.index.getD i 0 : Int))] else [])
        ++ df.colLabels.zip ((List.range df.cols.length).map fun j => df.cell i j) := by
  have hrow : ((List.range df.cols.length).map fun j => df.cell i j) = df.row i := by
    have h := range_map_getD_comp (fun c => c.getD i 0) ([] : List Int) df.cols
    exact h
  rw [iterrows_getD df i hi, itertuples_getD df b i hi, hrow]
  refine ⟨rfl, rfl, ?_⟩
  cases b <;> simp

/-- Witness for C3 at the concrete sample table, row 0, index included. -/
theorem traversals_follow_row_order_witness :
    (sampleDF.iterrows.getD 0 defaultRowItem).1 = sampleDF.index.getD 0 0 ∧
    (sampleDF.iterrows.getD 0 defaultRowItem).2.values
      = ((List.range sampleDF.cols.length).map fun j => sampleDF.cell 0 j) ∧
    ((sampleDF.itertuples true).getD 0 defaultNT).fields
      = (if true then [("Index", (sampleDF.index.getD 0 0 : Int))] else [])
        ++ sampleDF.colLabels.zip
            ((List.range sampleDF.cols.length).map fun j => sampleDF.cell 0 j) :=
  traversals_follow_row_order sampleDF true 0 (by decide)

/-- C6: with `index=False` every record yielded by itertuples contains
only the column values (the label-value pairs of the row, and in
particular no `Index` field when `Index` is not a column label), while
with the index included each record additionally carries the positional
index as its leading field. -/
theorem itertuples_index_flag (df : DataFrame) (i : Nat) (hi : i < df.nrows) :
    ((df.itertuples false).getD i defaultNT).fields
      = df.colLabels.zip (df.row i) ∧
    ((df.itertuples true).getD i defaultNT).fields
      = ("Index", (df.index.getD i 0 : Int)) :: df.colLabels.zip (df.row i) ∧
    ("Index" ∉ df.colLabels →
      NamedTuple.attr ((df.itertuples false).getD i defaultNT) "Index" = none) := by
  rw [itertuples_getD df true i hi, itertuples_getD df false i hi]
  refine ⟨rfl, rfl, ?_⟩
  intro hIdx
  show (df.colLabels.zip (df.row i)).lookup "Index" = none
  exact lookup_zip_of_not_mem _ _ _ hIdx

/-- Witness for C6 at the concrete sample table, row 0. -/
theorem itertuples_index_flag_witness :
    ((sampleDF.itertuples false).getD 0 defaultNT).fields
      = sampleDF.colLabels.zip (sampleDF.row 0) ∧
    ((sampleDF.itertuples true).getD 0 defaultNT).fields
      = ("Index", (sampleDF.index.getD 0 0 : Int))
        :: sampleDF.colLabels.zip (sampleDF.row 0) ∧
    ("Index" ∉ sampleDF.colLabels →
      NamedTuple.attr ((sampleDF.itertuples false).getD 0 defaultNT) "Index" = none) :=
  itertuples_index_flag sampleDF 0 (by decide)

/-- C7: each per-row item yielded by either traversal is addressable by
column name as an attribute: for a table with duplicate-free column labels
(not containing the reserved name `Index`) and one column per label,
accessing the `j`-th label on the yielded item returns the table entry at
that row and column, for both iterrows rows and itertuples records with
and without the index. -/
theorem attribute_access_returns_cell (df : DataFrame)
    (hnd : df.colLabels.Nodup) (hlen : df.cols.length = df.colLabels.length)
    (hIdx : "Index" ∉ df.colLabels) (i j : Nat) (hi : i < df.nrows)
    (hj : j < df.colLabels.length) :
    Series.attr (df.iterrows.getD i defaultRowItem).2 (df.colLabels.get ⟨j, hj⟩)
      = some (df.cell i j) ∧
    NamedTuple.attr ((df.itertuples true).getD i defaultNT)
        (df.colLabels.get ⟨j, hj⟩)
      = some (df.cell i j) ∧
    NamedTuple.attr ((df.itertuples false).getD i defaultNT)
        (df.colLabels.get ⟨j, hj⟩)
      = some (df.cell i j) := by
  rw [iterrows_getD df i hi, itertuples_getD df true i hi,
    itertuples_getD df false i hi]
  have hj' : j < df.cols.length := by omega
  have hrlen : (df.row i).length = df.colLabels.length := by
    simp [DataFrame.row, hlen]
  have hzip := lookup_zip_get df.colLabels (df.row i) j hnd hrlen hj
  have hcols : df.cols.getD j ([] : List Int) = df.cols.get ⟨j, hj'⟩ := by
    rw [List.getD_eq_getElem?_getD, List.getElem?_eq_getElem hj']
    rfl
  have hcell : (df.row i).get ⟨j, by omega⟩ = df.cell i j := by
    show (df.cols.map fun c => c.getD i 0).get ⟨j, by simpa [DataFrame.row] using hj'⟩
      = df.cell i j
    rw [List.get_map]
    show (df.cols.get ⟨j, hj'⟩).getD i 0 = (df.cols.getD j []).getD i 0
    rw [hcols]
  rw [hcell] at hzip
  have hk : df.colLabels.get ⟨j, hj⟩ ∈ df.colLabels := List.get_mem df.colLabels j hj
  have hne : df.colLabels.get ⟨j, hj⟩ ≠ "Index" := fun he => hIdx (he ▸ hk)
  refine ⟨hzip, ?_, hzip⟩
  show List.lookup (df.colLabels.get ⟨j, hj⟩)
      (("Index", (df.index.getD i 0 : Int)) :: df.colLabels.zip (df.row i))
    = some (df.cell i j)
  rw [List.lookup_cons, beq_false_of_ne hne]
  exact hzip

/-- Witness for C7 at the concrete sample table, row 0, column A. -/
theorem attribute_access_returns_cell_witness :
    Series.attr (sampleDF.iterrows.getD 0 defaultRowItem).2 "A"
      = some (sampleDF.cell 0 0) ∧
    NamedTuple.attr ((sampleDF.itertuples true).getD 0 defaultNT) "A"
      = some (sampleDF.cell 0 0) ∧
    NamedTuple.attr ((sampleDF.itertuples false).getD 0 defaultNT) "A"
      = some (sampleDF.cell 0 0) :=
  attribute_access_returns_cell sampleDF (by decide) (by decide) (by decide)
    0 0 (by decide) (by decide)

/-- C10: when itertuples includes the index, the positional index appears
as the leading field named `Index` (capital I); for a table whose column
labels do not contain the lowercase name `index`, attribute access via
`index` returns nothing, so it does not return the positional index. -/
theorem itertuples_index_field_is_capital (df : DataFrame)
    (hidx : "index" ∉ df.colLabels) (i : Nat) (hi : i < df.nrows) :
    ((df.itertuples true).getD i defaultNT).fields.head?
      = some ("Index", (df.index.getD i 0 : Int)) ∧
    NamedTuple.attr ((df.itertuples true).getD i defaultNT) "Index"
      = some ((df.index.getD i 0 : Int)) ∧
    NamedTuple.attr ((df.itertuples true).getD i defaultNT) "index" = none := by
  rw [itertuples_getD df true i hi]
  refine ⟨rfl, ?_, ?_⟩
  · show List.lookup "Index"
        (("Index", (df.index.getD i 0 : Int)) :: df.colLabels.zip (df.row i))
      = some ((df.index.getD i 0 : Int))
    rw [List.lookup_cons]
    simp
  · show List.lookup "index"
        (("Index", (df.index.getD i 0 : Int)) :: df.colLabels.zip (df.row i))
      = none
    rw [List.lookup_cons, beq_false_of_ne (by decide : "index" ≠ "Index")]
    exact lookup_zip_of_not_mem _ _ _ hidx

/-- Witness for C10 at the concrete sample table, row 0. -/
theorem itertuples_index_field_is_capital_witness :
    ((sampleDF.itertuples true).getD 0 defaultNT).fields.head?
      = some ("Index", (sampleDF.index.getD 0 0 : Int)) ∧
    NamedTuple.attr ((sampleDF.itertuples true).getD 0 defaultNT) "Index"
      = some ((sampleDF.index.getD 0 0 : Int)) ∧
    NamedTuple.attr ((sampleDF.itertuples true).getD 0 defaultNT) "index" = none :=
  itertuples_index_field_is_capital sampleDF (by decide) 0 (by decide)

/-- C8: none of the operations the notebooks perform fails: for any
pseudorandom draw, the construction call succeeds (the library's error
branch for malformed input is not taken), taking the first item of either
traversal succeeds, and attribute access `A` on that item succeeds. -/
theorem demo_operations_succeed (seed : Nat → Nat → Nat) :
    ∃ df : DataFrame, demoDF seed 100 = Except.ok df ∧
      (∃ p, df.iterrows.head? = some p ∧ (Series.attr p.2 "A").isSome = true) ∧
      (∃ nt, (df.itertuples true).head? = some nt ∧
        (NamedTuple.attr nt "A").isSome = true) := by
  refine ⟨_, demoDF_eq_ok seed 100, ?_, ?_⟩
  · exact ⟨_, head?_map_range _ _ (by simp [DataFrame.nrows]), rfl⟩
  · exact ⟨_, head?_map_range _ _ (by simp [DataFrame.nrows]), rfl⟩

/-- C9: every entry of the constructed table lies in the half-open range
`[0, 100)`: the sampling call has inclusive lower bound 0 and exclusive
upper bound 100 (and positions outside the table read as the in-range
default 0). -/
theorem demo_entries_in_range (seed : Nat → Nat → Nat) (n : Nat)
    (df : DataFrame) (h : demoDF seed n = Except.ok df) (i j : Nat) :
    0 ≤ df.cell i j ∧ df.cell i j < 100 := by
  have hok := demoDF_eq_ok seed n
  rw [h] at hok
  injection hok with hok
  subst hok
  have hzero : (0 : Int) ≤ 0 ∧ (0 : Int) < 100 := by norm_num
  show 0 ≤ DataFrame.cell _ i j ∧ DataFrame.cell _ i j < 100
  unfold DataFrame.cell
  refine getD_pred (fun v => 0 ≤ v ∧ v < 100) _ i 0 hzero ?_
  refine getD_pred (fun c => ∀ v ∈ c, 0 ≤ v ∧ v < 100) _ j []
    (by intro v hv; cases hv) ?_
  intro c hc v hv
  obtain ⟨j0, _, rfl⟩ := List.mem_map.mp hc
  obtain ⟨r, hr, rfl⟩ := List.mem_map.mp hv
  refine getD_pred (fun v => 0 ≤ v ∧ v < 100) r j0 0 hzero ?_
  intro x hx
  obtain ⟨a, b, rfl⟩ := np_random_randint_entry_mem 0 100 n 4 seed r hr x hx
  have h1 : (0 : Int) ≤ ((seed a b : Nat) : Int) % (100 - 0) :=
    Int.emod_nonneg _ (by norm_num)
  have h2 : ((seed a b : Nat) : Int) % (100 - 0) < 100 - 0 :=
    Int.emod_lt_of_pos _ (by norm_num)
  constructor <;> omega

/-- Witness for C9 at a concrete seed: the one-row table built with the
all-zero draw has its top-left entry in range. -/
theorem demo_entries_in_range_witness :
    0 ≤ (⟨["A", "B", "C", "D"], [[0], [0], [0], [0]], [0]⟩ : DataFrame).cell 0 0 ∧
    (⟨["A", "B", "C", "D"], [[0], [0], [0], [0]], [0]⟩ : DataFrame).cell 0 0 < 100 :=
  demo_entries_in_range (fun _ _ => 0) 1
    ⟨["A", "B", "C", "D"], [[0], [0], [0], [0]], [0]⟩ rfl 0 0

end PandasTips
